import Mathlib

set_option maxRecDepth 8000

/-!
Verification of the agent-session supervision and recovery subsystem of
ben-vargas/ai-gastown: the pane-liveness probe and auto-respawn hook command
builder (internal/tmux), the wisp-reaper patrol (internal/daemon), the
operational-config accessors (internal/config), and the event feed printer
(internal/feed). Go code is shallowly embedded: pointers become Option,
errors become Except/Option, the SQL statements of the reaper become list
transformations, and external effects (the tmux query, duration parsing,
JSON line parsing) become explicit function parameters.
-/

/-- `needle` occurs as a contiguous substring of `hay` (Go `strings.Contains`). -/
def containsSubstr (needle hay : String) : Prop :=
  needle.data <:+: hay.data

instance (a b : String) : Decidable (containsSubstr a b) :=
  List.decidableInfix a.data b.data

/-- `needle` is a suffix of `hay` (Go `strings.HasSuffix`). -/
def endsWith (needle hay : String) : Prop :=
  needle.data <:+ hay.data

instance (a b : String) : Decidable (endsWith a b) :=
  inferInstanceAs (Decidable (a.data <:+ b.data))

theorem infix_app_l {α : Type} {a b : List α} (h : a <:+: b) (c : List α) :
    a <:+: b ++ c := by
  obtain ⟨s, t, rfl⟩ := h
  exact ⟨s, t ++ c, by simp⟩

theorem infix_app_r {α : Type} {a b : List α} (h : a <:+: b) (c : List α) :
    a <:+: c ++ b := by
  obtain ⟨s, t, rfl⟩ := h
  exact ⟨c ++ s, t, by simp⟩

theorem suffix_app_r {α : Type} {a b : List α} (h : a <:+ b) (c : List α) :
    a <:+ c ++ b := by
  obtain ⟨t, rfl⟩ := h
  exact ⟨c ++ t, by simp⟩

/-- The respawn sub-command of the hook: the multiplexer-invocation prefix
(verbatim, with any socket qualifier it carries) followed by the
respawn-with-kill operation targeting the session. -/
def respawnPart (tmuxCmd session : String) : String :=
  tmuxCmd ++ " respawn-pane -k -t " ++ session

/-- Modelled from the spec: the Go function `buildAutoRespawnHookCmd` of
internal/tmux is absent from the sources (only its tests and callers are
present). Per spec section 4.2 the built hook command runs detached
(run-shell -b), sleeps a 3-second grace window, rechecks pane liveness via
the pane_dead format variable, conditionally issues a respawn-with-kill that
re-uses the given multiplexer-invocation prefix verbatim (so a socket
qualifier configured in the prefix is embedded in the respawn invocation),
and ends with an unconditional success suppression. -/
def buildAutoRespawnHookCmd (tmuxCmd session : String) : String :=
  "run-shell -b \"sleep 3; if [ \\\"$(" ++ tmuxCmd ++ " display-message -p -t "
    ++ session ++ " #\x7bpane_dead\x7d)\\\" = 1 ]; then "
    ++ respawnPart tmuxCmd session ++ "; fi\" || true"

/-- Pane-liveness probe, embedding the Go helper `isPaneDead` of
internal/tmux/respawn_hook_test.go: the tmux `list-panes -F pane_dead` query
is passed in as a function returning either an error or the command output;
a query error yields `false`, otherwise the trimmed output is compared
with "1". -/
def isPaneDead (query : String → String → Except String String)
    (socket session : String) : Bool :=
  match query socket session with
  | .error _ => false
  | .ok out => out.trim == "1"

/-! ### Wisp-reaper patrol (internal/daemon, wisp reaper file) -/

/-- Wisp status vocabulary; Go string values `open`, `hooked`, `in_progress`,
`closed` (the first is spelled `open'` as `open` is reserved in Lean). -/
inductive WispStatus
  | open'
  | hooked
  | in_progress
  | closed
deriving DecidableEq, Repr

/-- A row of the `wisps` table: status, created_at, closed_at (nullable).
Timestamps are integers. -/
structure Wisp where
  status : WispStatus
  created_at : Int
  closed_at : Option Int
deriving DecidableEq, Repr

/-- The SQL predicate status IN (open, hooked, in_progress). -/
def inOpenSet (s : WispStatus) : Bool :=
  match s with
  | .open' => true
  | .hooked => true
  | .in_progress => true
  | .closed => false

/-- Effect of the reaper's UPDATE statement on one row:
`SET status=closed, closed_at=NOW() WHERE status IN (open, hooked,
in_progress) AND created_at < cutoff`. -/
def reapOne (cutoff now : Int) (w : Wisp) : Wisp :=
  if inOpenSet w.status && decide (w.created_at < cutoff) then
    { w with status := .closed, closed_at := some now }
  else w

/-- The reaper's `SELECT COUNT(*) FROM wisps WHERE status IN (open, hooked,
in_progress)`. -/
def countOpen (wisps : List Wisp) : Nat :=
  wisps.countP (fun w => inOpenSet w.status)

/-- One target store: its `wisps` table plus error knobs for the two
statements `reapWispsInDB` issues (connection/UPDATE failure, and failure of
the subsequent COUNT query). -/
structure StoreState where
  wisps : List Wisp
  updateFails : Bool
  countFails : Bool

/-- Result of `reapWispsInDB`: the store contents after the call, the Go
return values (reaped count, remaining open count) and the error, if any. -/
structure ReapDBResult where
  wisps : List Wisp
  reaped : Nat
  openCount : Nat
  err : Option String
deriving DecidableEq, Repr

/-- Embedding of Go `reapWispsInDB` (internal/daemon): run the UPDATE closing
stale non-closed wisps (on error return 0, 0, error), record the affected-row
count as reaped, then run the COUNT of remaining non-closed wisps (on error
return reaped, 0, error — note the UPDATE has already been applied). -/
def reapWispsInDB (st : StoreState) (cutoff now : Int) : ReapDBResult :=
  if st.updateFails then
    { wisps := st.wisps, reaped := 0, openCount := 0,
      err := some "close stale wisps" }
  else
    let wisps2 := st.wisps.map (reapOne cutoff now)
    let reaped :=
      st.wisps.countP (fun w => inOpenSet w.status && decide (w.created_at < cutoff))
    if st.countFails then
      { wisps := wisps2, reaped := reaped, openCount := 0,
        err := some "count open wisps" }
    else
      { wisps := wisps2, reaped := reaped, openCount := countOpen wisps2,
        err := none }

/-- Structured log lines the sweep produces (`d.logger.Printf` calls). -/
inductive LogEntry
  | noDatabases
  | skippedInvalid (name : String)
  | storeError (name : String)
  | storeSummary (name : String) (reaped openCount : Nat)
  | totalSummary (reaped databases openCount : Nat)
  | warning (openCount : Nat)
deriving DecidableEq, Repr

/-- Alert threshold constant `wispAlertThreshold` of internal/daemon. -/
def wispAlertThreshold : Nat := 500

/-- One iteration of the sweep loop body of Go `reapWisps` for a database
name: (contribution to totalReaped, contribution to totalOpen, log lines).
An invalid name is logged and contributes nothing; a per-store error is
logged and contributes nothing; a successful store contributes its counts
and logs a per-store summary when it reaped anything. -/
def reapStep (valid : String → Bool) (stores : String → StoreState)
    (cutoff now : Int) (name : String) : Nat × Nat × List LogEntry :=
  if !valid name then
    (0, 0, [.skippedInvalid name])
  else
    let r := reapWispsInDB (stores name) cutoff now
    match r.err with
    | some _ => (0, 0, [.storeError name])
    | none =>
      (r.reaped, r.openCount,
        if r.reaped > 0 then [.storeSummary name r.reaped r.openCount] else [])

/-- The sweep loop of Go `reapWisps` over the database list, accumulating
totals and logs in order. -/
def reapLoop (valid : String → Bool) (stores : String → StoreState)
    (cutoff now : Int) : List String → Nat × Nat × List LogEntry
  | [] => (0, 0, [])
  | name :: rest =>
    let s := reapStep valid stores cutoff now name
    let t := reapLoop valid stores cutoff now rest
    (s.1 + t.1, s.2.1 + t.2.1, s.2.2 ++ t.2.2)

/-- Aggregate result of one sweep. -/
structure ReapResult where
  totalReaped : Nat
  totalOpen : Nat
  logs : List LogEntry
deriving DecidableEq, Repr

/-- Embedding of Go `reapWisps` (internal/daemon): skip everything when the
patrol is disabled; with no target databases log and return; otherwise sweep
every database in order, log a total summary when anything was reaped, and
log the escalation warning exactly when the aggregate open count exceeds
`wispAlertThreshold`. -/
def reapWisps (enabled : Bool) (valid : String → Bool)
    (stores : String → StoreState) (cutoff now : Int)
    (databases : List String) : ReapResult :=
  if !enabled then
    { totalReaped := 0, totalOpen := 0, logs := [] }
  else if databases.isEmpty then
    { totalReaped := 0, totalOpen := 0, logs := [.noDatabases] }
  else
    let t := reapLoop valid stores cutoff now databases
    let logs1 := t.2.2 ++
      (if t.1 > 0 then [.totalSummary t.1 databases.length t.2.1] else [])
    let logs2 := logs1 ++
      (if t.2.1 > wispAlertThreshold then [.warning t.2.1] else [])
    { totalReaped := t.1, totalOpen := t.2.1, logs := logs2 }

/-! ### Reaper interval and max-age configuration (internal/daemon) -/

/-- `defaultWispReaperInterval = 30 * time.Minute`, in nanoseconds. -/
def defaultWispReaperInterval : Int := 30 * 60 * 1000000000

/-- `defaultWispMaxAge = 24 * time.Hour`, in nanoseconds. -/
def defaultWispMaxAge : Int := 24 * 60 * 60 * 1000000000

/-- `WispReaperConfig` of internal/daemon (string durations, JSON omitempty
zero value is the empty string). -/
structure WispReaperConfig where
  enabled : Bool := false
  intervalStr : String := ""
  maxAgeStr : String := ""
  databases : List String := []

/-- The `Patrols` field group of the daemon patrol config; the `WispReaper`
pointer becomes an Option. -/
structure PatrolsConfig where
  wispReaper : Option WispReaperConfig := none

/-- `DaemonPatrolConfig`; the `Patrols` pointer becomes an Option. -/
structure DaemonPatrolConfig where
  patrols : Option PatrolsConfig := none

/-- Embedding of Go `wispReaperInterval`: `time.ParseDuration` is passed in
as `parse` (`none` = parse error, `some d` = parsed duration in
nanoseconds); the configured interval is used only when the whole config
chain is non-nil, the string is non-empty, parsing succeeds and the value is
strictly positive; otherwise the compiled default. -/
def wispReaperInterval (parse : String → Option Int)
    (config : Option DaemonPatrolConfig) : Int :=
  match config with
  | some c =>
    match c.patrols with
    | some p =>
      match p.wispReaper with
      | some w =>
        if w.intervalStr ≠ "" then
          match parse w.intervalStr with
          | some d => if d > 0 then d else defaultWispReaperInterval
          | none => defaultWispReaperInterval
        else defaultWispReaperInterval
      | none => defaultWispReaperInterval
    | none => defaultWispReaperInterval
  | none => defaultWispReaperInterval

/-- Embedding of Go `wispReaperMaxAge`, same shape with the max-age string
and default. -/
def wispReaperMaxAge (parse : String → Option Int)
    (config : Option DaemonPatrolConfig) : Int :=
  match config with
  | some c =>
    match c.patrols with
    | some p =>
      match p.wispReaper with
      | some w =>
        if w.maxAgeStr ≠ "" then
          match parse w.maxAgeStr with
          | some d => if d > 0 then d else defaultWispMaxAge
          | none => defaultWispMaxAge
        else defaultWispMaxAge
      | none => defaultWispMaxAge
    | none => defaultWispMaxAge
  | none => defaultWispMaxAge

/-! ### Operational config accessors (internal/config/operational.go).
Durations are Go `time.Duration` values embedded as Int nanoseconds; Go nil
pointers become Option. The threshold struct types and
`ParseDurationOrDefault` live in a config file absent from the sources;
their fields are reconstructed from the accessors and tests. -/

def nsMillisecond : Int := 1000000

def nsSecond : Int := 1000000000

def nsMinute : Int := 60 * nsSecond

def nsHour : Int := 60 * nsMinute

def DefaultClaudeStartTimeout : Int := 60 * nsSecond

def DefaultShellReadyTimeout : Int := 5 * nsSecond

def DefaultGracefulShutdownTimeout : Int := 3 * nsSecond

def DefaultBdCommandTimeout : Int := 30 * nsSecond

def DefaultBdSubprocessTimeout : Int := 5 * nsSecond

def DefaultGUPPViolationTimeout : Int := 30 * nsMinute

def DefaultHungSessionThreshold : Int := 30 * nsMinute

def DefaultStartupNudgeVerifyDelay : Int := 5 * nsSecond

def DefaultStartupNudgeMaxRetries : Int := 3

def DefaultNudgeReadyTimeout : Int := 10 * nsSecond

def DefaultNudgeRetryInterval : Int := 500 * nsMillisecond

def DefaultNudgeLockTimeout : Int := 30 * nsSecond

def DefaultNudgeNormalTTL : Int := 30 * nsMinute

def DefaultNudgeUrgentTTL : Int := 2 * nsHour

def DefaultNudgeMaxQueueDepth : Int := 50

def DefaultNudgeStaleClaimTimeout : Int := 5 * nsMinute

def DefaultMassDeathWindow : Int := 30 * nsSecond

def DefaultMassDeathThreshold : Int := 3

def DefaultDogIdleSessionTimeout : Int := 1 * nsHour

def DefaultDogIdleRemoveTimeout : Int := 4 * nsHour

def DefaultStaleWorkingTimeout : Int := 2 * nsHour

def DefaultMaxDogPoolSize : Int := 4

def DefaultMaxLifecycleMessageAge : Int := 6 * nsHour

def DefaultSyncFailureEscalationThreshold : Int := 3

def DefaultDoctorMolCooldown : Int := 5 * nsMinute

def DefaultRecoveryHeartbeatInterval : Int := 3 * nsMinute

def DefaultBootSpawnCooldown : Int := 2 * nsMinute

def DefaultDeaconGracePeriod : Int := 5 * nsMinute

def DefaultDeaconPingTimeout : Int := 30 * nsSecond

def DefaultDeaconConsecutiveFailures : Int := 3

def DefaultDeaconCooldown : Int := 5 * nsMinute

def DefaultDeaconHeartbeatStaleThreshold : Int := 5 * nsMinute

def DefaultDeaconHeartbeatVeryStale : Int := 15 * nsMinute

def DefaultMaxRedispatches : Int := 3

def DefaultRedispatchCooldown : Int := 5 * nsMinute

def DefaultMaxFeedsPerCycle : Int := 3

def DefaultFeedCooldown : Int := 10 * nsMinute

def DefaultPolecatHeartbeatStale : Int := 3 * nsMinute

def DefaultPolecatDoltMaxRetries : Int := 10

def DefaultPolecatDoltBaseBackoff : Int := 500 * nsMillisecond

def DefaultPolecatDoltBackoffMax : Int := 30 * nsSecond

def DefaultPolecatPendingMaxAge : Int := 5 * nsMinute

def DefaultPolecatNamepoolSize : Int := 50

def DefaultDoltHealthCheckInterval : Int := 30 * nsSecond

def DefaultDoltCmdTimeout : Int := 15 * nsSecond

def DefaultDoltMaxConnections : Int := 1000

def DefaultDoltSlowQueryThreshold : Int := 1 * nsSecond

def DefaultMailIdleNotifyTimeout : Int := 3 * nsSecond

def DefaultMailBdReadTimeout : Int := 60 * nsSecond

def DefaultMailBdWriteTimeout : Int := 60 * nsSecond

def DefaultMailMaxConcurrentAcks : Int := 8

def DefaultWebMaxConcurrentCmds : Int := 12

def DefaultWebMaxSubjectLen : Int := 500

def DefaultWebMaxBodyLen : Int := 100000

/-- Modelled from the spec: `ParseDurationOrDefault` is absent from the
sources (only its call sites in operational.go are). Per the spec a duration
string is "parsed with graceful fallback to a compiled default on parse
failure or non-positive value"; the unset (empty) string also falls back.
`parse` stands for `time.ParseDuration`. -/
def ParseDurationOrDefault (parse : String → Option Int) (s : String)
    (dflt : Int) : Int :=
  if s = "" then dflt
  else
    match parse s with
    | some d => if d > 0 then d else dflt
    | none => dflt

/-- `SessionThresholds`; duration fields are Go strings ("" = unset), count
fields are pointers embedded as Option. -/
structure SessionThresholds where
  claudeStartTimeout : String := ""
  shellReadyTimeout : String := ""
  gracefulShutdownTimeout : String := ""
  bdCommandTimeout : String := ""
  bdSubprocessTimeout : String := ""
  guppViolationTimeout : String := ""
  hungSessionThreshold : String := ""
  startupNudgeVerifyDelay : String := ""
  startupNudgeMaxRetries : Option Int := none

structure NudgeThresholds where
  readyTimeout : String := ""
  retryInterval : String := ""
  lockTimeout : String := ""
  normalTTL : String := ""
  urgentTTL : String := ""
  maxQueueDepth : Option Int := none
  staleClaimThreshold : String := ""

structure DaemonThresholds where
  massDeathWindow : String := ""
  massDeathThreshold : Option Int := none
  dogIdleSessionTimeout : String := ""
  dogIdleRemoveTimeout : String := ""
  staleWorkingTimeout : String := ""
  maxDogPoolSize : Option Int := none
  maxLifecycleMessageAge : String := ""
  syncFailureEscalationThreshold : Option Int := none
  doctorMolCooldown : String := ""
  recoveryHeartbeatInterval : String := ""
  bootSpawnCooldown : String := ""
  deaconGracePeriod : String := ""

structure DeaconThresholds where
  pingTimeout : String := ""
  consecutiveFailures : Option Int := none
  cooldown : String := ""
  heartbeatStaleThreshold : String := ""
  heartbeatVeryStaleThreshold : String := ""
  maxRedispatches : Option Int := none
  redispatchCooldown : String := ""
  maxFeedsPerCycle : Option Int := none
  feedCooldown : String := ""

structure PolecatThresholds where
  heartbeatStaleThreshold : String := ""
  doltMaxRetries : Option Int := none
  doltBaseBackoff : String := ""
  doltBackoffMax : String := ""
  pendingMaxAge : String := ""
  namepoolSize : Option Int := none

structure DoltThresholds where
  healthCheckInterval : String := ""
  cmdTimeout : String := ""
  maxConnections : Option Int := none
  slowQueryThreshold : String := ""

structure MailThresholds where
  idleNotifyTimeout : String := ""
  bdReadTimeout : String := ""
  bdWriteTimeout : String := ""
  maxConcurrentAckOps : Option Int := none

structure WebThresholds where
  maxConcurrentCommands : Option Int := none
  maxSubjectLen : Option Int := none
  maxBodyLen : Option Int := none

/-- `OperationalConfig`: every sub-struct is a pointer, embedded as Option. -/
structure OperationalConfig where
  session : Option SessionThresholds := none
  nudge : Option NudgeThresholds := none
  daemon : Option DaemonThresholds := none
  deacon : Option DeaconThresholds := none
  polecat : Option PolecatThresholds := none
  dolt : Option DoltThresholds := none
  mail : Option MailThresholds := none
  web : Option WebThresholds := none

/-- `TownSettings`: only the Operational pointer matters here. -/
structure TownSettings where
  operational : Option OperationalConfig := none

/-- Embedding of Go `LoadOperationalConfig`: `LoadOrCreateTownSettings` is
passed in as its outcome `load` (error, nil settings, or settings). The
result models the returned pointer: `none` would be a nil pointer, and the
function returns an empty config on any load failure instead. -/
def LoadOperationalConfig (load : Except String (Option TownSettings)) :
    Option OperationalConfig :=
  match load with
  | .error _ => some {}
  | .ok none => some {}
  | .ok (some ts) =>
    match ts.operational with
    | none => some {}
    | some op => some op

/-- `GetSessionConfig`, nil-receiver safe. -/
def GetSessionConfig (c : Option OperationalConfig) : Option SessionThresholds :=
  match c with
  | some cfg =>
    match cfg.session with
    | some s => some s
    | none => some {}
  | none => some {}

def GetNudgeConfig (c : Option OperationalConfig) : Option NudgeThresholds :=
  match c with
  | some cfg =>
    match cfg.nudge with
    | some s => some s
    | none => some {}
  | none => some {}

def GetDaemonConfig (c : Option OperationalConfig) : Option DaemonThresholds :=
  match c with
  | some cfg =>
    match cfg.daemon with
    | some s => some s
    | none => some {}
  | none => some {}

def GetDeaconConfig (c : Option OperationalConfig) : Option DeaconThresholds :=
  match c with
  | some cfg =>
    match cfg.deacon with
    | some s => some s
    | none => some {}
  | none => some {}

def GetPolecatConfig (c : Option OperationalConfig) : Option PolecatThresholds :=
  match c with
  | some cfg =>
    match cfg.polecat with
    | some s => some s
    | none => some {}
  | none => some {}

def GetDoltConfig (c : Option OperationalConfig) : Option DoltThresholds :=
  match c with
  | some cfg =>
    match cfg.dolt with
    | some s => some s
    | none => some {}
  | none => some {}

def GetMailConfig (c : Option OperationalConfig) : Option MailThresholds :=
  match c with
  | some cfg =>
    match cfg.mail with
    | some s => some s
    | none => some {}
  | none => some {}

def GetWebConfig (c : Option OperationalConfig) : Option WebThresholds :=
  match c with
  | some cfg =>
    match cfg.web with
    | some s => some s
    | none => some {}
  | none => some {}

/-- Duration accessor shape shared by every `...D` method: nil receiver gives
the default, otherwise `ParseDurationOrDefault` of the chosen field. -/
def durAccessor {σ : Type} (field : σ → String) (dflt : Int)
    (parse : String → Option Int) (s : Option σ) : Int :=
  match s with
  | some st => ParseDurationOrDefault parse (field st) dflt
  | none => dflt

/-- Count accessor shape shared by every `...V` method: nil receiver or nil
field pointer gives the default, otherwise the pointed-to value. -/
def valAccessor {σ : Type} (field : σ → Option Int) (dflt : Int)
    (s : Option σ) : Int :=
  match s with
  | some st =>
    match field st with
    | some v => v
    | none => dflt
  | none => dflt

def ClaudeStartTimeoutD : (String → Option Int) → Option SessionThresholds → Int :=
  durAccessor (fun s => s.claudeStartTimeout) DefaultClaudeStartTimeout

def ShellReadyTimeoutD : (String → Option Int) → Option SessionThresholds → Int :=
  durAccessor (fun s => s.shellReadyTimeout) DefaultShellReadyTimeout

def GracefulShutdownTimeoutD : (String → Option Int) → Option SessionThresholds → Int :=
  durAccessor (fun s => s.gracefulShutdownTimeout) DefaultGracefulShutdownTimeout

def BdCommandTimeoutD : (String → Option Int) → Option SessionThresholds → Int :=
  durAccessor (fun s => s.bdCommandTimeout) DefaultBdCommandTimeout

def BdSubprocessTimeoutD : (String → Option Int) → Option SessionThresholds → Int :=
  durAccessor (fun s => s.bdSubprocessTimeout) DefaultBdSubprocessTimeout

def GUPPViolationTimeoutD : (String → Option Int) → Option SessionThresholds → Int :=
  durAccessor (fun s => s.guppViolationTimeout) DefaultGUPPViolationTimeout

def HungSessionThresholdD : (String → Option Int) → Option SessionThresholds → Int :=
  durAccessor (fun s => s.hungSessionThreshold) DefaultHungSessionThreshold

def StartupNudgeVerifyDelayD : (String → Option Int) → Option SessionThresholds → Int :=
  durAccessor (fun s => s.startupNudgeVerifyDelay) DefaultStartupNudgeVerifyDelay

def StartupNudgeMaxRetriesV : Option SessionThresholds → Int :=
  valAccessor (fun s => s.startupNudgeMaxRetries) DefaultStartupNudgeMaxRetries

def ReadyTimeoutD : (String → Option Int) → Option NudgeThresholds → Int :=
  durAccessor (fun n => n.readyTimeout) DefaultNudgeReadyTimeout

def RetryIntervalD : (String → Option Int) → Option NudgeThresholds → Int :=
  durAccessor (fun n => n.retryInterval) DefaultNudgeRetryInterval

def LockTimeoutD : (String → Option Int) → Option NudgeThresholds → Int :=
  durAccessor (fun n => n.lockTimeout) DefaultNudgeLockTimeout

def NormalTTLD : (String → Option Int) → Option NudgeThresholds → Int :=
  durAccessor (fun n => n.normalTTL) DefaultNudgeNormalTTL

def UrgentTTLD : (String → Option Int) → Option NudgeThresholds → Int :=
  durAccessor (fun n => n.urgentTTL) DefaultNudgeUrgentTTL

def MaxQueueDepthV : Option NudgeThresholds → Int :=
  valAccessor (fun n => n.maxQueueDepth) DefaultNudgeMaxQueueDepth

def StaleClaimThresholdD : (String → Option Int) → Option NudgeThresholds → Int :=
  durAccessor (fun n => n.staleClaimThreshold) DefaultNudgeStaleClaimTimeout

def MassDeathWindowD : (String → Option Int) → Option DaemonThresholds → Int :=
  durAccessor (fun d => d.massDeathWindow) DefaultMassDeathWindow

def MassDeathThresholdV : Option DaemonThresholds → Int :=
  valAccessor (fun d => d.massDeathThreshold) DefaultMassDeathThreshold

def DogIdleSessionTimeoutD : (String → Option Int) → Option DaemonThresholds → Int :=
  durAccessor (fun d => d.dogIdleSessionTimeout) DefaultDogIdleSessionTimeout

def DogIdleRemoveTimeoutD : (String → Option Int) → Option DaemonThresholds → Int :=
  durAccessor (fun d => d.dogIdleRemoveTimeout) DefaultDogIdleRemoveTimeout

def StaleWorkingTimeoutD : (String → Option Int) → Option DaemonThresholds → Int :=
  durAccessor (fun d => d.staleWorkingTimeout) DefaultStaleWorkingTimeout

def MaxDogPoolSizeV : Option DaemonThresholds → Int :=
  valAccessor (fun d => d.maxDogPoolSize) DefaultMaxDogPoolSize

def MaxLifecycleMessageAgeD : (String → Option Int) → Option DaemonThresholds → Int :=
  durAccessor (fun d => d.maxLifecycleMessageAge) DefaultMaxLifecycleMessageAge

def SyncFailureEscalationThresholdV : Option DaemonThresholds → Int :=
  valAccessor (fun d => d.syncFailureEscalationThreshold)
    DefaultSyncFailureEscalationThreshold

def DoctorMolCooldownD : (String → Option Int) → Option DaemonThresholds → Int :=
  durAccessor (fun d => d.doctorMolCooldown) DefaultDoctorMolCooldown

def RecoveryHeartbeatIntervalD : (String → Option Int) → Option DaemonThresholds → Int :=
  durAccessor (fun d => d.recoveryHeartbeatInterval) DefaultRecoveryHeartbeatInterval

def BootSpawnCooldownD : (String → Option Int) → Option DaemonThresholds → Int :=
  durAccessor (fun d => d.bootSpawnCooldown) DefaultBootSpawnCooldown

def DeaconGracePeriodD : (String → Option Int) → Option DaemonThresholds → Int :=
  durAccessor (fun d => d.deaconGracePeriod) DefaultDeaconGracePeriod

def PingTimeoutD : (String → Option Int) → Option DeaconThresholds → Int :=
  durAccessor (fun d => d.pingTimeout) DefaultDeaconPingTimeout

def ConsecutiveFailuresV : Option DeaconThresholds → Int :=
  valAccessor (fun d => d.consecutiveFailures) DefaultDeaconConsecutiveFailures

def CooldownD : (String → Option Int) → Option DeaconThresholds → Int :=
  durAccessor (fun d => d.cooldown) DefaultDeaconCooldown

def DeaconHeartbeatStaleThresholdD : (String → Option Int) → Option DeaconThresholds → Int :=
  durAccessor (fun d => d.heartbeatStaleThreshold) DefaultDeaconHeartbeatStaleThreshold

def HeartbeatVeryStaleThresholdD : (String → Option Int) → Option DeaconThresholds → Int :=
  durAccessor (fun d => d.heartbeatVeryStaleThreshold) DefaultDeaconHeartbeatVeryStale

def MaxRedispatchesV : Option DeaconThresholds → Int :=
  valAccessor (fun d => d.maxRedispatches) DefaultMaxRedispatches

def RedispatchCooldownD : (String → Option Int) → Option DeaconThresholds → Int :=
  durAccessor (fun d => d.redispatchCooldown) DefaultRedispatchCooldown

def MaxFeedsPerCycleV : Option DeaconThresholds → Int :=
  valAccessor (fun d => d.maxFeedsPerCycle) DefaultMaxFeedsPerCycle

def FeedCooldownD : (String → Option Int) → Option DeaconThresholds → Int :=
  durAccessor (fun d => d.feedCooldown) DefaultFeedCooldown

def PolecatHeartbeatStaleThresholdD : (String → Option Int) → Option PolecatThresholds → Int :=
  durAccessor (fun p => p.heartbeatStaleThreshold) DefaultPolecatHeartbeatStale

def DoltMaxRetriesV : Option PolecatThresholds → Int :=
  valAccessor (fun p => p.doltMaxRetries) DefaultPolecatDoltMaxRetries

def DoltBaseBackoffD : (String → Option Int) → Option PolecatThresholds → Int :=
  durAccessor (fun p => p.doltBaseBackoff) DefaultPolecatDoltBaseBackoff

def DoltBackoffMaxD : (String → Option Int) → Option PolecatThresholds → Int :=
  durAccessor (fun p => p.doltBackoffMax) DefaultPolecatDoltBackoffMax

def PendingMaxAgeD : (String → Option Int) → Option PolecatThresholds → Int :=
  durAccessor (fun p => p.pendingMaxAge) DefaultPolecatPendingMaxAge

def NamepoolSizeV : Option PolecatThresholds → Int :=
  valAccessor (fun p => p.namepoolSize) DefaultPolecatNamepoolSize

def HealthCheckIntervalD : (String → Option Int) → Option DoltThresholds → Int :=
  durAccessor (fun dt => dt.healthCheckInterval) DefaultDoltHealthCheckInterval

def CmdTimeoutD : (String → Option Int) → Option DoltThresholds → Int :=
  durAccessor (fun dt => dt.cmdTimeout) DefaultDoltCmdTimeout

def MaxConnectionsV : Option DoltThresholds → Int :=
  valAccessor (fun dt => dt.maxConnections) DefaultDoltMaxConnections

def SlowQueryThresholdD : (String → Option Int) → Option DoltThresholds → Int :=
  durAccessor (fun dt => dt.slowQueryThreshold) DefaultDoltSlowQueryThreshold

def IdleNotifyTimeoutD : (String → Option Int) → Option MailThresholds → Int :=
  durAccessor (fun m => m.idleNotifyTimeout) DefaultMailIdleNotifyTimeout

def BdReadTimeoutD : (String → Option Int) → Option MailThresholds → Int :=
  durAccessor (fun m => m.bdReadTimeout) DefaultMailBdReadTimeout

def BdWriteTimeoutD : (String → Option Int) → Option MailThresholds → Int :=
  durAccessor (fun m => m.bdWriteTimeout) DefaultMailBdWriteTimeout

def MaxConcurrentAckOpsV : Option MailThresholds → Int :=
  valAccessor (fun m => m.maxConcurrentAckOps) DefaultMailMaxConcurrentAcks

def MaxConcurrentCommandsV : Option WebThresholds → Int :=
  valAccessor (fun w => w.maxConcurrentCommands) DefaultWebMaxConcurrentCmds

def MaxSubjectLenV : Option WebThresholds → Int :=
  valAccessor (fun w => w.maxSubjectLen) DefaultWebMaxSubjectLen

def MaxBodyLenV : Option WebThresholds → Int :=
  valAccessor (fun w => w.maxBodyLen) DefaultWebMaxBodyLen

/-! ### Event feed printer (internal/feed, PrintGtEvents) -/

/-- A parsed feed event; the timestamp is an integer instant. -/
structure Event where
  time : Int
  etype : String
  actor : String
  message : String
deriving DecidableEq, Repr

/-- Outcome of `PrintGtEvents`: the file failed to open (the only error
return), the no-events message, or the events printed in order. -/
inductive GtFeedResult
  | openError
  | noEvents
  | printed (events : List Event)
deriving DecidableEq, Repr

/-- Embedding of Go `PrintGtEvents` (internal/feed): `parseGtEventLine` is
passed in as `parse` (absent from the sources; `none` = unparseable line,
skipped), the file contents as `file` (`none` = open failure). Parseable
lines are collected, sorted most-recent-first (`sort.Slice` with
`Time.After`), truncated to `limit` when `limit > 0`, reversed to
chronological order; if nothing parsed, the no-events message is printed and
nil returned. -/
def PrintGtEvents (parse : String → Option Event)
    (file : Option (List String)) (limit : Int) : GtFeedResult :=
  match file with
  | none => .openError
  | some lines =>
    let events := lines.filterMap parse
    let sorted := events.mergeSort (fun a b => decide (b.time ≤ a.time))
    let limited :=
      if 0 < limit ∧ (limit : Int) < (sorted.length : Int) then
        sorted.take limit.toNat
      else sorted
    let chron := limited.reverse
    if chron.isEmpty then .noEvents else .printed chron

theorem data_of_hook (tmuxCmd session : String) :
    (buildAutoRespawnHookCmd tmuxCmd session).data =
      ("run-shell -b \"sleep 3; if [ \\\"$(").data ++ tmuxCmd.data
        ++ (" display-message -p -t ").data ++ session.data
        ++ (" #\x7bpane_dead\x7d)\\\" = 1 ]; then ").data
        ++ ((tmuxCmd.data ++ (" respawn-pane -k -t ").data ++ session.data))
        ++ ("; fi\" || true").data := by
  simp only [buildAutoRespawnHookCmd, respawnPart, String.data_append]

/-- C1: for every multiplexer-invocation prefix and session name, the built
hook command contains the background-execution flag `run-shell -b`, a
liveness-recheck term mentioning `pane_dead`, a trailing unconditional
success suppression `|| true`, and the full respawn sub-command
`<prefix> respawn-pane -k -t <session>` verbatim — so any socket qualifier
the prefix carries occurs inside the respawn invocation; on the test's
concrete inputs the socket qualifier `-L gt` occurs exactly when the prefix
carries it. -/
theorem buildAutoRespawnHookCmd_format (tmuxCmd session : String) :
    containsSubstr "run-shell -b" (buildAutoRespawnHookCmd tmuxCmd session) ∧
    containsSubstr "pane_dead" (buildAutoRespawnHookCmd tmuxCmd session) ∧
    endsWith "|| true" (buildAutoRespawnHookCmd tmuxCmd session) ∧
    containsSubstr (respawnPart tmuxCmd session)
      (buildAutoRespawnHookCmd tmuxCmd session) ∧
    (∀ q : String, containsSubstr q tmuxCmd →
      containsSubstr q (respawnPart tmuxCmd session)) ∧
    containsSubstr "-L gt" (buildAutoRespawnHookCmd "tmux -L gt" "hq-deacon") ∧
    ¬ containsSubstr "-L gt" (buildAutoRespawnHookCmd "tmux" "hq-deacon") := by
  refine ⟨?_, ?_, ?_, ?_, ?_, by decide, by decide⟩
  · rw [containsSubstr, data_of_hook]
    have h0 : ("run-shell -b").data <:+:
        ("run-shell -b \"sleep 3; if [ \\\"$(").data := by decide
    exact infix_app_l (infix_app_l (infix_app_l (infix_app_l (infix_app_l
      (infix_app_l h0 _) _) _) _) _) _
  · rw [containsSubstr, data_of_hook]
    have h0 : ("pane_dead").data <:+:
        (" #\x7bpane_dead\x7d)\\\" = 1 ]; then ").data := by decide
    exact infix_app_l (infix_app_l (infix_app_r h0 _) _) _
  · rw [endsWith, data_of_hook]
    have h0 : ("|| true").data <:+ ("; fi\" || true").data := by decide
    exact suffix_app_r h0 _
  · rw [containsSubstr, data_of_hook]
    have h0 : (respawnPart tmuxCmd session).data =
        tmuxCmd.data ++ (" respawn-pane -k -t ").data ++ session.data := by
      simp only [respawnPart, String.data_append]
    rw [h0]
    exact infix_app_l (infix_app_r (List.infix_rfl) _) _
  · intro q hq
    rw [containsSubstr] at hq ⊢
    have h0 : (respawnPart tmuxCmd session).data =
        tmuxCmd.data ++ (" respawn-pane -k -t ").data ++ session.data := by
      simp only [respawnPart, String.data_append]
    rw [h0]
    exact infix_app_l (infix_app_l hq _) _

/-- C4: when the pane-liveness query fails, the probe returns `false`
(non-dead): absence of a positive answer is never treated as proof of
death. -/
theorem isPaneDead_error_false (query : String → String → Except String String)
    (socket session : String) (e : String)
    (h : query socket session = .error e) :
    isPaneDead query socket session = false := by
  simp [isPaneDead, h]

/-- Witness for C4 at a concrete always-failing query. -/
theorem isPaneDead_error_false_witness :
    isPaneDead (fun _ _ => Except.error "no such session") "gt" "hq-deacon"
      = false :=
  isPaneDead_error_false (fun _ _ => Except.error "no such session")
    "gt" "hq-deacon" "no such session" rfl

theorem inOpenSet_closed : inOpenSet WispStatus.closed = false := rfl

theorem inOpenSet_reapOne (cutoff now : Int) (w : Wisp) :
    inOpenSet (reapOne cutoff now w).status =
      (inOpenSet w.status && !decide (w.created_at < cutoff)) := by
  cases h1 : inOpenSet w.status <;> cases h2 : decide (w.created_at < cutoff) <;>
    simp [reapOne, h1, h2, inOpenSet_closed]

theorem countOpen_map_reapOne (wisps : List Wisp) (cutoff now : Int) :
    countOpen (wisps.map (reapOne cutoff now)) =
      wisps.countP (fun w => inOpenSet w.status && !decide (w.created_at < cutoff)) := by
  unfold countOpen
  induction wisps with
  | nil => rfl
  | cons w ws ih =>
    simp only [List.map_cons, List.countP_cons, ih, inOpenSet_reapOne]

/-- C2: on an error-free store, one `reapWispsInDB` call transitions exactly
the non-closed wisps older than the cutoff to closed with closed_at set to
now, leaves every other wisp (in particular every already-closed wisp and
its closed_at) untouched, returns reaped = the number of rows so
transitioned, and returns open = the number of non-closed wisps remaining
afterwards (equivalently, the non-closed wisps not older than the cutoff). -/
theorem reapWispsInDB_semantics (wisps : List Wisp) (cutoff now : Int) :
    (reapWispsInDB ⟨wisps, false, false⟩ cutoff now).err = none ∧
    (reapWispsInDB ⟨wisps, false, false⟩ cutoff now).wisps.length = wisps.length ∧
    (∀ i (h : i < wisps.length)
        (h2 : i < (reapWispsInDB ⟨wisps, false, false⟩ cutoff now).wisps.length),
      (inOpenSet wisps[i].status = true → wisps[i].created_at < cutoff →
        (reapWispsInDB ⟨wisps, false, false⟩ cutoff now).wisps[i] =
          { wisps[i] with
              status := WispStatus.closed, closed_at := some now }) ∧
      (wisps[i].status = WispStatus.closed →
        (reapWispsInDB ⟨wisps, false, false⟩ cutoff now).wisps[i] = wisps[i]) ∧
      (¬ wisps[i].created_at < cutoff →
        (reapWispsInDB ⟨wisps, false, false⟩ cutoff now).wisps[i] = wisps[i])) ∧
    (reapWispsInDB ⟨wisps, false, false⟩ cutoff now).reaped =
      wisps.countP (fun w => inOpenSet w.status && decide (w.created_at < cutoff)) ∧
    (reapWispsInDB ⟨wisps, false, false⟩ cutoff now).openCount =
      countOpen (reapWispsInDB ⟨wisps, false, false⟩ cutoff now).wisps ∧
    (reapWispsInDB ⟨wisps, false, false⟩ cutoff now).openCount =
      wisps.countP (fun w => inOpenSet w.status && !decide (w.created_at < cutoff)) := by
  refine ⟨rfl, by simp [reapWispsInDB], ?_, rfl, rfl, ?_⟩
  · intro i h h2
    have hget : (reapWispsInDB ⟨wisps, false, false⟩ cutoff now).wisps[i] =
        reapOne cutoff now wisps[i] := by
      simp [reapWispsInDB]
    refine ⟨?_, ?_, ?_⟩
    · intro hopen hold
      have hcond : (inOpenSet wisps[i].status &&
          decide (wisps[i].created_at < cutoff)) = true := by
        simp [hopen, hold]
      rw [hget]
      unfold reapOne
      rw [hcond]
      simp
    · intro hclosed
      have hcond : (inOpenSet wisps[i].status &&
          decide (wisps[i].created_at < cutoff)) = false := by
        simp [hclosed, inOpenSet_closed]
      rw [hget]
      unfold reapOne
      rw [hcond]
      simp
    · intro hnotold
      have hcond : (inOpenSet wisps[i].status &&
          decide (wisps[i].created_at < cutoff)) = false := by
        simp [hnotold]
      rw [hget]
      unfold reapOne
      rw [hcond]
      simp
  · simpa [reapWispsInDB] using countOpen_map_reapOne wisps cutoff now

/-- Witness for C2 on a concrete three-wisp store with cutoff 8 and now 100:
the stale open wisp is closed with closed_at 100, the already-closed wisp is
untouched, the fresh open wisp survives, reaped = 1 and open = 1. -/
theorem reapWispsInDB_semantics_witness :
    (0 : Nat) < 3 ∧
    (reapWispsInDB
        ⟨[⟨WispStatus.open', 0, none⟩, ⟨WispStatus.closed, 1, some 5⟩,
          ⟨WispStatus.open', 10, none⟩], false, false⟩ 8 100).wisps.get
      ⟨0, by decide⟩ = ⟨WispStatus.closed, 0, some 100⟩ ∧
    (reapWispsInDB
        ⟨[⟨WispStatus.open', 0, none⟩, ⟨WispStatus.closed, 1, some 5⟩,
          ⟨WispStatus.open', 10, none⟩], false, false⟩ 8 100).wisps.get
      ⟨1, by decide⟩ = ⟨WispStatus.closed, 1, some 5⟩ ∧
    (reapWispsInDB
        ⟨[⟨WispStatus.open', 0, none⟩, ⟨WispStatus.closed, 1, some 5⟩,
          ⟨WispStatus.open', 10, none⟩], false, false⟩ 8 100).reaped = 1 ∧
    (reapWispsInDB
        ⟨[⟨WispStatus.open', 0, none⟩, ⟨WispStatus.closed, 1, some 5⟩,
          ⟨WispStatus.open', 10, none⟩], false, false⟩ 8 100).openCount = 1 := by
  have h := reapWispsInDB_semantics
    [⟨WispStatus.open', 0, none⟩, ⟨WispStatus.closed, 1, some 5⟩,
      ⟨WispStatus.open', 10, none⟩] 8 100
  refine ⟨by decide, ?_, ?_, ?_, ?_⟩
  · simpa using (h.2.2.1 0 (by decide) (by decide)).1 (by decide) (by decide)
  · simpa using (h.2.2.1 1 (by decide) (by decide)).2.1 (by decide)
  · simpa using h.2.2.2.1
  · rw [h.2.2.2.2.2]
    decide

/-- C7: wisp status is monotonic under reaping, for every store state
(error knobs included): a wisp whose status was closed before the call is
identical afterwards (status and closed_at untouched), and every wisp the
call changes at all has status closed afterwards with its created_at
preserved — reaping never reopens a closed wisp and only moves wisps toward
closed. -/
theorem reapWispsInDB_monotonic (st : StoreState) (cutoff now : Int) :
    (reapWispsInDB st cutoff now).wisps.length = st.wisps.length ∧
    (∀ i (h : i < st.wisps.length)
        (h2 : i < (reapWispsInDB st cutoff now).wisps.length),
      (st.wisps[i].status = WispStatus.closed →
        (reapWispsInDB st cutoff now).wisps[i] = st.wisps[i]) ∧
      ((reapWispsInDB st cutoff now).wisps[i] ≠ st.wisps[i] →
        ((reapWispsInDB st cutoff now).wisps[i]).status = WispStatus.closed ∧
          ((reapWispsInDB st cutoff now).wisps[i]).created_at =
            st.wisps[i].created_at)) := by
  by_cases hu : st.updateFails
  · constructor
    · simp [reapWispsInDB, hu]
    · intro i h h2
      have hget : (reapWispsInDB st cutoff now).wisps[i] = st.wisps[i] := by
        simp [reapWispsInDB, hu]
      exact ⟨fun _ => hget, fun hne => absurd hget hne⟩
  · have hw : (reapWispsInDB st cutoff now).wisps =
        st.wisps.map (reapOne cutoff now) := by
      by_cases hc : st.countFails <;> simp [reapWispsInDB, hu, hc]
    constructor
    · simp [hw]
    · intro i h h2
      have h3 : i < (st.wisps.map (reapOne cutoff now)).length := by
        simpa using h
      have hget : (reapWispsInDB st cutoff now).wisps[i] =
          reapOne cutoff now st.wisps[i] := by
        rw [List.getElem_of_eq hw h2]
        simp
      constructor
      · intro hclosed
        have hcond : (inOpenSet st.wisps[i].status &&
            decide (st.wisps[i].created_at < cutoff)) = false := by
          simp [hclosed, inOpenSet_closed]
        rw [hget]
        unfold reapOne
        rw [hcond]
        simp
      · intro hne
        rw [hget] at hne ⊢
        unfold reapOne at hne ⊢
        cases hcond : (inOpenSet st.wisps[i].status &&
            decide (st.wisps[i].created_at < cutoff)) with
        | true => simp
        | false => simp [hcond] at hne

/-- Witness for C7: a closed wisp (with closed_at 5) is untouched, and the
changed stale open wisp ends closed with created_at preserved. -/
theorem reapWispsInDB_monotonic_witness :
    (0 : Nat) < 2 ∧
    (reapWispsInDB
        ⟨[⟨WispStatus.closed, 1, some 5⟩, ⟨WispStatus.hooked, 2, none⟩],
          false, false⟩ 8 100).wisps.get ⟨0, by decide⟩ =
      ⟨WispStatus.closed, 1, some 5⟩ ∧
    ((reapWispsInDB
        ⟨[⟨WispStatus.closed, 1, some 5⟩, ⟨WispStatus.hooked, 2, none⟩],
          false, false⟩ 8 100).wisps.get ⟨1, by decide⟩).status =
      WispStatus.closed := by
  have h := reapWispsInDB_monotonic
    ⟨[⟨WispStatus.closed, 1, some 5⟩, ⟨WispStatus.hooked, 2, none⟩],
      false, false⟩ 8 100
  refine ⟨by decide, ?_, ?_⟩
  · simpa using (h.2 0 (by decide) (by decide)).1 (by decide)
  · have h2 := (h.2 1 (by decide) (by decide)).2 (by decide)
    simpa using h2.1

theorem reapLoop_append (valid : String → Bool) (stores : String → StoreState)
    (cutoff now : Int) (xs ys : List String) :
    reapLoop valid stores cutoff now (xs ++ ys) =
      ((reapLoop valid stores cutoff now xs).1 +
        (reapLoop valid stores cutoff now ys).1,
       (reapLoop valid stores cutoff now xs).2.1 +
        (reapLoop valid stores cutoff now ys).2.1,
       (reapLoop valid stores cutoff now xs).2.2 ++
        (reapLoop valid stores cutoff now ys).2.2) := by
  induction xs with
  | nil => simp [reapLoop]
  | cons n rest ih =>
    simp [reapLoop, ih, Nat.add_assoc]

theorem warning_not_in_reapStep (valid : String → Bool)
    (stores : String → StoreState) (cutoff now : Int) (name : String) (n : Nat) :
    LogEntry.warning n ∉ (reapStep valid stores cutoff now name).2.2 := by
  unfold reapStep
  cases hv : valid name with
  | false => simp [hv]
  | true =>
    cases herr : (reapWispsInDB (stores name) cutoff now).err with
    | some e => simp [hv, herr]
    | none =>
      by_cases hr : (reapWispsInDB (stores name) cutoff now).reaped > 0 <;>
        simp [hv, herr, hr]

theorem warning_not_in_reapLoop (valid : String → Bool)
    (stores : String → StoreState) (cutoff now : Int) (dbs : List String)
    (n : Nat) :
    LogEntry.warning n ∉ (reapLoop valid stores cutoff now dbs).2.2 := by
  induction dbs with
  | nil => simp [reapLoop]
  | cons name rest ih =>
    simp only [reapLoop, List.mem_append]
    push_neg
    exact ⟨warning_not_in_reapStep valid stores cutoff now name n, ih⟩

theorem reapWisps_mid_step (valid : String → Bool)
    (stores : String → StoreState) (cutoff now : Int)
    (pre post : List String) (name : String) (L : List LogEntry)
    (hstep : reapStep valid stores cutoff now name = (0, 0, L)) :
    (reapWisps true valid stores cutoff now (pre ++ name :: post)).totalReaped =
        (reapLoop valid stores cutoff now pre).1 +
        (reapLoop valid stores cutoff now post).1 ∧
    (reapWisps true valid stores cutoff now (pre ++ name :: post)).totalOpen =
        (reapLoop valid stores cutoff now pre).2.1 +
        (reapLoop valid stores cutoff now post).2.1 ∧
    ∀ x ∈ L, x ∈ (reapWisps true valid stores cutoff now (pre ++ name :: post)).logs := by
  have hne : (pre ++ name :: post).isEmpty = false := by
    cases pre <;> simp
  have hsplit : reapLoop valid stores cutoff now (pre ++ name :: post) =
      ((reapLoop valid stores cutoff now pre).1 +
        (reapLoop valid stores cutoff now post).1,
       (reapLoop valid stores cutoff now pre).2.1 +
        (reapLoop valid stores cutoff now post).2.1,
       (reapLoop valid stores cutoff now pre).2.2 ++
        (L ++ (reapLoop valid stores cutoff now post).2.2)) := by
    rw [reapLoop_append]
    show _ = (_ + _, _ + _, _)
    have hmid : reapLoop valid stores cutoff now (name :: post) =
        (0 + (reapLoop valid stores cutoff now post).1,
         0 + (reapLoop valid stores cutoff now post).2.1,
         L ++ (reapLoop valid stores cutoff now post).2.2) := by
      simp only [reapLoop, hstep]
    rw [hmid]
    simp
  refine ⟨?_, ?_, ?_⟩
  · simp [reapWisps, hne, hsplit]
  · simp [reapWisps, hne, hsplit]
  · intro x hx
    simp [reapWisps, hne, hsplit, List.mem_append, hx]

/-- C3: after a sweep, the escalation warning is in the logs exactly when the
aggregate open-wisp count strictly exceeds the fixed threshold
`wispAlertThreshold` (500); concretely, an aggregate open count of 501
produces exactly the warning log and an aggregate of exactly 500 produces no
log at all. -/
theorem reapWisps_alert_iff (enabled : Bool) (valid : String → Bool)
    (stores : String → StoreState) (cutoff now : Int) (databases : List String) :
    (LogEntry.warning (reapWisps enabled valid stores cutoff now databases).totalOpen ∈
        (reapWisps enabled valid stores cutoff now databases).logs ↔
      wispAlertThreshold <
        (reapWisps enabled valid stores cutoff now databases).totalOpen) ∧
    (reapWisps true (fun _ => true)
        (fun _ => ⟨List.replicate 501 ⟨WispStatus.open', 10, none⟩, false, false⟩)
        5 100 ["hq"]).totalOpen = 501 ∧
    (reapWisps true (fun _ => true)
        (fun _ => ⟨List.replicate 501 ⟨WispStatus.open', 10, none⟩, false, false⟩)
        5 100 ["hq"]).logs = [LogEntry.warning 501] ∧
    (reapWisps true (fun _ => true)
        (fun _ => ⟨List.replicate 500 ⟨WispStatus.open', 10, none⟩, false, false⟩)
        5 100 ["hq"]).totalOpen = 500 ∧
    (reapWisps true (fun _ => true)
        (fun _ => ⟨List.replicate 500 ⟨WispStatus.open', 10, none⟩, false, false⟩)
        5 100 ["hq"]).logs = [] := by
  refine ⟨?_, by rfl, by rfl, by rfl, by rfl⟩
  cases enabled with
  | false => simp [reapWisps, wispAlertThreshold]
  | true =>
    by_cases hdb : databases.isEmpty
    · simp [reapWisps, hdb, wispAlertThreshold]
    · have hw := warning_not_in_reapLoop valid stores cutoff now databases
      by_cases hr : (reapLoop valid stores cutoff now databases).1 > 0 <;>
        by_cases halert :
          (reapLoop valid stores cutoff now databases).2.1 > wispAlertThreshold <;>
        simp [reapWisps, hdb, hr, halert, List.mem_append, hw]

/-- C5: a sweep never aborts as a whole: over zero target stores it logs and
returns (no error, zero totals); a name failing the allow-list check is
logged and skipped while every other store still contributes exactly its own
result; a store whose query errors is logged and skipped while every other
store still contributes exactly its own result. -/
theorem reapWisps_never_aborts (valid : String → Bool)
    (stores : String → StoreState) (cutoff now : Int) :
    (reapWisps true valid stores cutoff now [] =
        { totalReaped := 0, totalOpen := 0, logs := [LogEntry.noDatabases] }) ∧
    (∀ pre post name, valid name = false →
      (reapWisps true valid stores cutoff now (pre ++ name :: post)).totalReaped =
          (reapLoop valid stores cutoff now pre).1 +
          (reapLoop valid stores cutoff now post).1 ∧
      (reapWisps true valid stores cutoff now (pre ++ name :: post)).totalOpen =
          (reapLoop valid stores cutoff now pre).2.1 +
          (reapLoop valid stores cutoff now post).2.1 ∧
      LogEntry.skippedInvalid name ∈
        (reapWisps true valid stores cutoff now (pre ++ name :: post)).logs) ∧
    (∀ pre post name e, valid name = true →
      (reapWispsInDB (stores name) cutoff now).err = some e →
      (reapWisps true valid stores cutoff now (pre ++ name :: post)).totalReaped =
          (reapLoop valid stores cutoff now pre).1 +
          (reapLoop valid stores cutoff now post).1 ∧
      (reapWisps true valid stores cutoff now (pre ++ name :: post)).totalOpen =
          (reapLoop valid stores cutoff now pre).2.1 +
          (reapLoop valid stores cutoff now post).2.1 ∧
      LogEntry.storeError name ∈
        (reapWisps true valid stores cutoff now (pre ++ name :: post)).logs) := by
  refine ⟨by simp [reapWisps], ?_, ?_⟩
  · intro pre post name hv
    have hstep : reapStep valid stores cutoff now name =
        (0, 0, [LogEntry.skippedInvalid name]) := by
      simp [reapStep, hv]
    obtain ⟨h1, h2, h3⟩ :=
      reapWisps_mid_step valid stores cutoff now pre post name _ hstep
    exact ⟨h1, h2, h3 _ (by simp)⟩
  · intro pre post name e hv herr
    have hstep : reapStep valid stores cutoff now name =
        (0, 0, [LogEntry.storeError name]) := by
      simp [reapStep, hv, herr]
    obtain ⟨h1, h2, h3⟩ :=
      reapWisps_mid_step valid stores cutoff now pre post name _ hstep
    exact ⟨h1, h2, h3 _ (by simp)⟩

/-- Witness for C5: the invalid name `bad` between two valid stores is
skipped and logged while both neighbours are still reaped (each store holds
one stale open wisp, so the sweep still reaps two). -/
theorem reapWisps_never_aborts_witness :
    ((fun s => s != "bad") "bad") = false ∧
    (reapWisps true (fun s => s != "bad")
        (fun _ => ⟨[⟨WispStatus.open', 0, none⟩], false, false⟩) 8 100
        (["a"] ++ "bad" :: ["b"])).totalReaped = 2 ∧
    LogEntry.skippedInvalid "bad" ∈
      (reapWisps true (fun s => s != "bad")
        (fun _ => ⟨[⟨WispStatus.open', 0, none⟩], false, false⟩) 8 100
        (["a"] ++ "bad" :: ["b"])).logs := by
  have h := (reapWisps_never_aborts (fun s => s != "bad")
    (fun _ => ⟨[⟨WispStatus.open', 0, none⟩], false, false⟩) 8 100).2.1
    ["a"] ["b"] "bad" (by decide)
  refine ⟨by decide, ?_, h.2.2⟩
  rw [h.1]
  rfl

/-- C9: a store whose COUNT query errors after its UPDATE succeeded has its
rows actually closed in the store (and `reapWispsInDB` even returns the
nonzero reaped count), yet it contributes nothing to either aggregate total
of the sweep — the aggregates equal those of the sweep without it, and only
the per-store error is logged. -/
theorem reapWisps_error_store_excluded (valid : String → Bool)
    (stores : String → StoreState) (cutoff now : Int)
    (pre post : List String) (name : String)
    (hv : valid name = true)
    (hu : (stores name).updateFails = false)
    (hc : (stores name).countFails = true) :
    (reapWispsInDB (stores name) cutoff now).wisps =
        (stores name).wisps.map (reapOne cutoff now) ∧
    (reapWispsInDB (stores name) cutoff now).reaped =
        (stores name).wisps.countP
          (fun w => inOpenSet w.status && decide (w.created_at < cutoff)) ∧
    (reapWispsInDB (stores name) cutoff now).err.isSome = true ∧
    (reapWisps true valid stores cutoff now (pre ++ name :: post)).totalReaped =
        (reapLoop valid stores cutoff now pre).1 +
        (reapLoop valid stores cutoff now post).1 ∧
    (reapWisps true valid stores cutoff now (pre ++ name :: post)).totalOpen =
        (reapLoop valid stores cutoff now pre).2.1 +
        (reapLoop valid stores cutoff now post).2.1 ∧
    LogEntry.storeError name ∈
      (reapWisps true valid stores cutoff now (pre ++ name :: post)).logs := by
  have hdb : reapWispsInDB (stores name) cutoff now =
      { wisps := (stores name).wisps.map (reapOne cutoff now),
        reaped := (stores name).wisps.countP
          (fun w => inOpenSet w.status && decide (w.created_at < cutoff)),
        openCount := 0, err := some "count open wisps" } := by
    simp [reapWispsInDB, hu, hc]
  have hstep : reapStep valid stores cutoff now name =
      (0, 0, [LogEntry.storeError name]) := by
    simp [reapStep, hv, hdb]
  obtain ⟨h1, h2, h3⟩ :=
    reapWisps_mid_step valid stores cutoff now pre post name _ hstep
  exact ⟨by rw [hdb], by rw [hdb], by rw [hdb]; rfl, h1, h2, h3 _ (by simp)⟩

/-- Witness for C9: the single store holds one stale open wisp; the UPDATE
closes it (reaped = 1) but the COUNT fails, and the sweep's aggregate
reaped total is 0 with only the store error logged. -/
theorem reapWisps_error_store_excluded_witness :
    ((fun _ : String => true) "hq") = true ∧
    ((fun _ : String => StoreState.mk [⟨WispStatus.open', 0, none⟩] false true)
        "hq").updateFails = false ∧
    ((fun _ : String => StoreState.mk [⟨WispStatus.open', 0, none⟩] false true)
        "hq").countFails = true ∧
    (reapWispsInDB
        ((fun _ : String => StoreState.mk [⟨WispStatus.open', 0, none⟩] false true)
          "hq") 8 100).reaped = 1 ∧
    (reapWisps true (fun _ => true)
        (fun _ => StoreState.mk [⟨WispStatus.open', 0, none⟩] false true) 8 100
        ([] ++ "hq" :: [])).totalReaped = 0 ∧
    LogEntry.storeError "hq" ∈
      (reapWisps true (fun _ => true)
        (fun _ => StoreState.mk [⟨WispStatus.open', 0, none⟩] false true) 8 100
        ([] ++ "hq" :: [])).logs := by
  have h := reapWisps_error_store_excluded (fun _ => true)
    (fun _ => StoreState.mk [⟨WispStatus.open', 0, none⟩] false true) 8 100
    [] [] "hq" rfl rfl rfl
  refine ⟨rfl, rfl, rfl, ?_, ?_, h.2.2.2.2.2⟩
  · rw [h.2.1]
    rfl
  · rw [h.2.2.2.1]
    rfl

/-- C6: the reaper interval and max-age never come out zero — both are
always strictly positive — and fall back to the compiled defaults (30
minutes and 24 hours respectively, in nanoseconds) whenever the config
chain is nil, the duration string is empty, fails to parse, or parses to a
zero or negative value. -/
theorem wispReaperDurations_fallback (parse : String → Option Int)
    (config : Option DaemonPatrolConfig) :
    0 < wispReaperInterval parse config ∧
    0 < wispReaperMaxAge parse config ∧
    defaultWispReaperInterval = 30 * 60 * 1000000000 ∧
    defaultWispMaxAge = 24 * 60 * 60 * 1000000000 ∧
    (∀ c p w, config = some c → c.patrols = some p → p.wispReaper = some w →
      (w.intervalStr = "" →
        wispReaperInterval parse config = defaultWispReaperInterval) ∧
      (parse w.intervalStr = none →
        wispReaperInterval parse config = defaultWispReaperInterval) ∧
      (∀ d, parse w.intervalStr = some d → d ≤ 0 →
        wispReaperInterval parse config = defaultWispReaperInterval) ∧
      (w.maxAgeStr = "" →
        wispReaperMaxAge parse config = defaultWispMaxAge) ∧
      (parse w.maxAgeStr = none →
        wispReaperMaxAge parse config = defaultWispMaxAge) ∧
      (∀ d, parse w.maxAgeStr = some d → d ≤ 0 →
        wispReaperMaxAge parse config = defaultWispMaxAge)) ∧
    (config = none →
      wispReaperInterval parse config = defaultWispReaperInterval ∧
      wispReaperMaxAge parse config = defaultWispMaxAge) := by
  have hIpos : 0 < defaultWispReaperInterval := by
    norm_num [defaultWispReaperInterval]
  have hApos : 0 < defaultWispMaxAge := by
    norm_num [defaultWispMaxAge]
  refine ⟨?_, ?_, rfl, rfl, ?_, ?_⟩
  · cases config with
    | none => exact hIpos
    | some c =>
      obtain ⟨pt⟩ := c
      cases pt with
      | none => exact hIpos
      | some p =>
        obtain ⟨wr⟩ := p
        cases wr with
        | none => exact hIpos
        | some w =>
          by_cases hs : w.intervalStr = ""
          · simpa [wispReaperInterval, hs] using hIpos
          · cases hp : parse w.intervalStr with
            | none => simpa [wispReaperInterval, hs, hp] using hIpos
            | some d =>
              by_cases hd : d > 0
              · simp [wispReaperInterval, hs, hp, hd]
              · simpa [wispReaperInterval, hs, hp, hd] using hIpos
  · cases config with
    | none => exact hApos
    | some c =>
      obtain ⟨pt⟩ := c
      cases pt with
      | none => exact hApos
      | some p =>
        obtain ⟨wr⟩ := p
        cases wr with
        | none => exact hApos
        | some w =>
          by_cases hs : w.maxAgeStr = ""
          · simpa [wispReaperMaxAge, hs] using hApos
          · cases hp : parse w.maxAgeStr with
            | none => simpa [wispReaperMaxAge, hs, hp] using hApos
            | some d =>
              by_cases hd : d > 0
              · simp [wispReaperMaxAge, hs, hp, hd]
              · simpa [wispReaperMaxAge, hs, hp, hd] using hApos
  · rintro c p w rfl h2 h3
    refine ⟨?_, ?_, ?_, ?_, ?_, ?_⟩
    · intro hstr
      simp [wispReaperInterval, h2, h3, hstr]
    · intro hp
      by_cases hs : w.intervalStr = "" <;>
        simp [wispReaperInterval, h2, h3, hs, hp]
    · intro d hp hd
      have hd2 : ¬ d > 0 := by omega
      by_cases hs : w.intervalStr = "" <;>
        simp [wispReaperInterval, h2, h3, hs, hp, hd2]
    · intro hstr
      simp [wispReaperMaxAge, h2, h3, hstr]
    · intro hp
      by_cases hs : w.maxAgeStr = "" <;>
        simp [wispReaperMaxAge, h2, h3, hs, hp]
    · intro d hp hd
      have hd2 : ¬ d > 0 := by omega
      by_cases hs : w.maxAgeStr = "" <;>
        simp [wispReaperMaxAge, h2, h3, hs, hp, hd2]
  · rintro rfl
    exact ⟨rfl, rfl⟩

/-- Witness for C6: with a parser that only understands the negative
duration string, the unparseable interval string and the negative max-age
string both fall back to their compiled defaults. -/
theorem wispReaperDurations_fallback_witness :
    wispReaperInterval
        (fun s => if s = "-5m" then some (-300000000000) else none)
        (some ⟨some ⟨some ⟨false, "bogus", "-5m", []⟩⟩⟩) =
      defaultWispReaperInterval ∧
    wispReaperMaxAge
        (fun s => if s = "-5m" then some (-300000000000) else none)
        (some ⟨some ⟨some ⟨false, "bogus", "-5m", []⟩⟩⟩) =
      defaultWispMaxAge ∧
    0 < wispReaperInterval
        (fun s => if s = "-5m" then some (-300000000000) else none)
        (some ⟨some ⟨some ⟨false, "bogus", "-5m", []⟩⟩⟩) := by
  have h := wispReaperDurations_fallback
    (fun s => if s = "-5m" then some (-300000000000) else none)
    (some ⟨some ⟨some ⟨false, "bogus", "-5m", []⟩⟩⟩)
  have hb := h.2.2.2.2.1 _ _ _ rfl rfl rfl
  exact ⟨hb.2.1 (by decide), hb.2.2.2.2.2 (-300000000000) (by decide) (by decide),
    h.1⟩

/-- C8: every operational-config accessor is total on nil:
`LoadOperationalConfig` never returns a nil config whatever the settings
load produced, every `GetXConfig` returns a non-nil thresholds struct for
every receiver (nil included), and every threshold accessor returns its
compiled-in default on a nil receiver or an unset field, for every duration
parser. -/
theorem operationalConfig_total_on_nil (parse : String → Option Int) :
    (∀ load, (LoadOperationalConfig load).isSome = true) ∧
    (∀ c, (GetSessionConfig c).isSome = true) ∧
    (∀ c, (GetNudgeConfig c).isSome = true) ∧
    (∀ c, (GetDaemonConfig c).isSome = true) ∧
    (∀ c, (GetDeaconConfig c).isSome = true) ∧
    (∀ c, (GetPolecatConfig c).isSome = true) ∧
    (∀ c, (GetDoltConfig c).isSome = true) ∧
    (∀ c, (GetMailConfig c).isSome = true) ∧
    (∀ c, (GetWebConfig c).isSome = true) ∧
    ClaudeStartTimeoutD parse none = DefaultClaudeStartTimeout ∧
    ClaudeStartTimeoutD parse (some {}) = DefaultClaudeStartTimeout ∧
    ShellReadyTimeoutD parse none = DefaultShellReadyTimeout ∧
    ShellReadyTimeoutD parse (some {}) = DefaultShellReadyTimeout ∧
    GracefulShutdownTimeoutD parse none = DefaultGracefulShutdownTimeout ∧
    GracefulShutdownTimeoutD parse (some {}) = DefaultGracefulShutdownTimeout ∧
    BdCommandTimeoutD parse none = DefaultBdCommandTimeout ∧
    BdCommandTimeoutD parse (some {}) = DefaultBdCommandTimeout ∧
    BdSubprocessTimeoutD parse none = DefaultBdSubprocessTimeout ∧
    BdSubprocessTimeoutD parse (some {}) = DefaultBdSubprocessTimeout ∧
    GUPPViolationTimeoutD parse none = DefaultGUPPViolationTimeout ∧
    GUPPViolationTimeoutD parse (some {}) = DefaultGUPPViolationTimeout ∧
    HungSessionThresholdD parse none = DefaultHungSessionThreshold ∧
    HungSessionThresholdD parse (some {}) = DefaultHungSessionThreshold ∧
    StartupNudgeVerifyDelayD parse none = DefaultStartupNudgeVerifyDelay ∧
    StartupNudgeVerifyDelayD parse (some {}) = DefaultStartupNudgeVerifyDelay ∧
    StartupNudgeMaxRetriesV none = DefaultStartupNudgeMaxRetries ∧
    StartupNudgeMaxRetriesV (some {}) = DefaultStartupNudgeMaxRetries ∧
    ReadyTimeoutD parse none = DefaultNudgeReadyTimeout ∧
    ReadyTimeoutD parse (some {}) = DefaultNudgeReadyTimeout ∧
    RetryIntervalD parse none = DefaultNudgeRetryInterval ∧
    RetryIntervalD parse (some {}) = DefaultNudgeRetryInterval ∧
    LockTimeoutD parse none = DefaultNudgeLockTimeout ∧
    LockTimeoutD parse (some {}) = DefaultNudgeLockTimeout ∧
    NormalTTLD parse none = DefaultNudgeNormalTTL ∧
    NormalTTLD parse (some {}) = DefaultNudgeNormalTTL ∧
    UrgentTTLD parse none = DefaultNudgeUrgentTTL ∧
    UrgentTTLD parse (some {}) = DefaultNudgeUrgentTTL ∧
    StaleClaimThresholdD parse none = DefaultNudgeStaleClaimTimeout ∧
    StaleClaimThresholdD parse (some {}) = DefaultNudgeStaleClaimTimeout ∧
    MaxQueueDepthV none = DefaultNudgeMaxQueueDepth ∧
    MaxQueueDepthV (some {}) = DefaultNudgeMaxQueueDepth ∧
    MassDeathWindowD parse none = DefaultMassDeathWindow ∧
    MassDeathWindowD parse (some {}) = DefaultMassDeathWindow ∧
    DogIdleSessionTimeoutD parse none = DefaultDogIdleSessionTimeout ∧
    DogIdleSessionTimeoutD parse (some {}) = DefaultDogIdleSessionTimeout ∧
    DogIdleRemoveTimeoutD parse none = DefaultDogIdleRemoveTimeout ∧
    DogIdleRemoveTimeoutD parse (some {}) = DefaultDogIdleRemoveTimeout ∧
    StaleWorkingTimeoutD parse none = DefaultStaleWorkingTimeout ∧
    StaleWorkingTimeoutD parse (some {}) = DefaultStaleWorkingTimeout ∧
    MaxLifecycleMessageAgeD parse none = DefaultMaxLifecycleMessageAge ∧
    MaxLifecycleMessageAgeD parse (some {}) = DefaultMaxLifecycleMessageAge ∧
    DoctorMolCooldownD parse none = DefaultDoctorMolCooldown ∧
    DoctorMolCooldownD parse (some {}) = DefaultDoctorMolCooldown ∧
    RecoveryHeartbeatIntervalD parse none = DefaultRecoveryHeartbeatInterval ∧
    RecoveryHeartbeatIntervalD parse (some {}) = DefaultRecoveryHeartbeatInterval ∧
    BootSpawnCooldownD parse none = DefaultBootSpawnCooldown ∧
    BootSpawnCooldownD parse (some {}) = DefaultBootSpawnCooldown ∧
    DeaconGracePeriodD parse none = DefaultDeaconGracePeriod ∧
    DeaconGracePeriodD parse (some {}) = DefaultDeaconGracePeriod ∧
    MassDeathThresholdV none = DefaultMassDeathThreshold ∧
    MassDeathThresholdV (some {}) = DefaultMassDeathThreshold ∧
    MaxDogPoolSizeV none = DefaultMaxDogPoolSize ∧
    MaxDogPoolSizeV (some {}) = DefaultMaxDogPoolSize ∧
    SyncFailureEscalationThresholdV none = DefaultSyncFailureEscalationThreshold ∧
    SyncFailureEscalationThresholdV (some {}) = DefaultSyncFailureEscalationThreshold ∧
    PingTimeoutD parse none = DefaultDeaconPingTimeout ∧
    PingTimeoutD parse (some {}) = DefaultDeaconPingTimeout ∧
    CooldownD parse none = DefaultDeaconCooldown ∧
    CooldownD parse (some {}) = DefaultDeaconCooldown ∧
    DeaconHeartbeatStaleThresholdD parse none = DefaultDeaconHeartbeatStaleThreshold ∧
    DeaconHeartbeatStaleThresholdD parse (some {}) = DefaultDeaconHeartbeatStaleThreshold ∧
    HeartbeatVeryStaleThresholdD parse none = DefaultDeaconHeartbeatVeryStale ∧
    HeartbeatVeryStaleThresholdD parse (some {}) = DefaultDeaconHeartbeatVeryStale ∧
    RedispatchCooldownD parse none = DefaultRedispatchCooldown ∧
    RedispatchCooldownD parse (some {}) = DefaultRedispatchCooldown ∧
    FeedCooldownD parse none = DefaultFeedCooldown ∧
    FeedCooldownD parse (some {}) = DefaultFeedCooldown ∧
    ConsecutiveFailuresV none = DefaultDeaconConsecutiveFailures ∧
    ConsecutiveFailuresV (some {}) = DefaultDeaconConsecutiveFailures ∧
    MaxRedispatchesV none = DefaultMaxRedispatches ∧
    MaxRedispatchesV (some {}) = DefaultMaxRedispatches ∧
    MaxFeedsPerCycleV none = DefaultMaxFeedsPerCycle ∧
    MaxFeedsPerCycleV (some {}) = DefaultMaxFeedsPerCycle ∧
    PolecatHeartbeatStaleThresholdD parse none = DefaultPolecatHeartbeatStale ∧
    PolecatHeartbeatStaleThresholdD parse (some {}) = DefaultPolecatHeartbeatStale ∧
    DoltBaseBackoffD parse none = DefaultPolecatDoltBaseBackoff ∧
    DoltBaseBackoffD parse (some {}) = DefaultPolecatDoltBaseBackoff ∧
    DoltBackoffMaxD parse none = DefaultPolecatDoltBackoffMax ∧
    DoltBackoffMaxD parse (some {}) = DefaultPolecatDoltBackoffMax ∧
    PendingMaxAgeD parse none = DefaultPolecatPendingMaxAge ∧
    PendingMaxAgeD parse (some {}) = DefaultPolecatPendingMaxAge ∧
    DoltMaxRetriesV none = DefaultPolecatDoltMaxRetries ∧
    DoltMaxRetriesV (some {}) = DefaultPolecatDoltMaxRetries ∧
    NamepoolSizeV none = DefaultPolecatNamepoolSize ∧
    NamepoolSizeV (some {}) = DefaultPolecatNamepoolSize ∧
    HealthCheckIntervalD parse none = DefaultDoltHealthCheckInterval ∧
    HealthCheckIntervalD parse (some {}) = DefaultDoltHealthCheckInterval ∧
    CmdTimeoutD parse none = DefaultDoltCmdTimeout ∧
    CmdTimeoutD parse (some {}) = DefaultDoltCmdTimeout ∧
    SlowQueryThresholdD parse none = DefaultDoltSlowQueryThreshold ∧
    SlowQueryThresholdD parse (some {}) = DefaultDoltSlowQueryThreshold ∧
    MaxConnectionsV none = DefaultDoltMaxConnections ∧
    MaxConnectionsV (some {}) = DefaultDoltMaxConnections ∧
    IdleNotifyTimeoutD parse none = DefaultMailIdleNotifyTimeout ∧
    IdleNotifyTimeoutD parse (some {}) = DefaultMailIdleNotifyTimeout ∧
    BdReadTimeoutD parse none = DefaultMailBdReadTimeout ∧
    BdReadTimeoutD parse (some {}) = DefaultMailBdReadTimeout ∧
    BdWriteTimeoutD parse none = DefaultMailBdWriteTimeout ∧
    BdWriteTimeoutD parse (some {}) = DefaultMailBdWriteTimeout ∧
    MaxConcurrentAckOpsV none = DefaultMailMaxConcurrentAcks ∧
    MaxConcurrentAckOpsV (some {}) = DefaultMailMaxConcurrentAcks ∧
    MaxConcurrentCommandsV none = DefaultWebMaxConcurrentCmds ∧
    MaxConcurrentCommandsV (some {}) = DefaultWebMaxConcurrentCmds ∧
    MaxSubjectLenV none = DefaultWebMaxSubjectLen ∧
    MaxSubjectLenV (some {}) = DefaultWebMaxSubjectLen ∧
    MaxBodyLenV none = DefaultWebMaxBodyLen ∧
    MaxBodyLenV (some {}) = DefaultWebMaxBodyLen := by
  have hload : ∀ load, (LoadOperationalConfig load).isSome = true := by
    intro load
    rcases load with e | ts
    · rfl
    · rcases ts with _ | ts
      · rfl
      · rcases ts with ⟨op⟩
        cases op <;> rfl
  have hGetSessionConfig : ∀ c, (GetSessionConfig c).isSome = true := by
    intro c
    rcases c with _ | ⟨f1, f2, f3, f4, f5, f6, f7, f8⟩
    · rfl
    · cases f1 <;> rfl
  have hGetNudgeConfig : ∀ c, (GetNudgeConfig c).isSome = true := by
    intro c
    rcases c with _ | ⟨f1, f2, f3, f4, f5, f6, f7, f8⟩
    · rfl
    · cases f2 <;> rfl
  have hGetDaemonConfig : ∀ c, (GetDaemonConfig c).isSome = true := by
    intro c
    rcases c with _ | ⟨f1, f2, f3, f4, f5, f6, f7, f8⟩
    · rfl
    · cases f3 <;> rfl
  have hGetDeaconConfig : ∀ c, (GetDeaconConfig c).isSome = true := by
    intro c
    rcases c with _ | ⟨f1, f2, f3, f4, f5, f6, f7, f8⟩
    · rfl
    · cases f4 <;> rfl
  have hGetPolecatConfig : ∀ c, (GetPolecatConfig c).isSome = true := by
    intro c
    rcases c with _ | ⟨f1, f2, f3, f4, f5, f6, f7, f8⟩
    · rfl
    · cases f5 <;> rfl
  have hGetDoltConfig : ∀ c, (GetDoltConfig c).isSome = true := by
    intro c
    rcases c with _ | ⟨f1, f2, f3, f4, f5, f6, f7, f8⟩
    · rfl
    · cases f6 <;> rfl
  have hGetMailConfig : ∀ c, (GetMailConfig c).isSome = true := by
    intro c
    rcases c with _ | ⟨f1, f2, f3, f4, f5, f6, f7, f8⟩
    · rfl
    · cases f7 <;> rfl
  have hGetWebConfig : ∀ c, (GetWebConfig c).isSome = true := by
    intro c
    rcases c with _ | ⟨f1, f2, f3, f4, f5, f6, f7, f8⟩
    · rfl
    · cases f8 <;> rfl
  exact ⟨hload, hGetSessionConfig, hGetNudgeConfig, hGetDaemonConfig, hGetDeaconConfig, hGetPolecatConfig, hGetDoltConfig, hGetMailConfig, hGetWebConfig, rfl, rfl, rfl, rfl, rfl, rfl, rfl, rfl, rfl, rfl, rfl, rfl, rfl, rfl, rfl, rfl, rfl, rfl, rfl, rfl, rfl, rfl, rfl, rfl, rfl, rfl, rfl, rfl, rfl, rfl, rfl, rfl, rfl, rfl, rfl, rfl, rfl, rfl, rfl, rfl, rfl, rfl, rfl, rfl, rfl, rfl, rfl, rfl, rfl, rfl, rfl, rfl, rfl, rfl, rfl, rfl, rfl, rfl, rfl, rfl, rfl, rfl, rfl, rfl, rfl, rfl, rfl, rfl, rfl, rfl, rfl, rfl, rfl, rfl, rfl, rfl, rfl, rfl, rfl, rfl, rfl, rfl, rfl, rfl, rfl, rfl, rfl, rfl, rfl, rfl, rfl, rfl, rfl, rfl, rfl, rfl, rfl, rfl, rfl, rfl, rfl, rfl, rfl, rfl, rfl, rfl, rfl, rfl⟩

theorem desc_take_reverse (s : List Event) (n : Nat)
    (hs : s.Pairwise (fun a b => b.time ≤ a.time)) :
    ((s.take n).reverse).Pairwise (fun a b => a.time ≤ b.time) ∧
    (∀ d ∈ s.drop n, ∀ e ∈ (s.take n).reverse, d.time ≤ e.time) := by
  constructor
  · rw [List.pairwise_reverse]
    exact List.Pairwise.sublist (List.take_sublist n s) hs
  · have hs2 : (s.take n ++ s.drop n).Pairwise (fun a b => b.time ≤ a.time) := by
      rw [List.take_append_drop]
      exact hs
    have hcross := (List.pairwise_append.mp hs2).2.2
    intro d hd e he
    exact hcross e (List.mem_reverse.mp he) d hd

theorem nonempty_isEmpty_false {α : Type} (l : List α) (h : 0 < l.length) :
    l.isEmpty = false := by
  simp [List.isEmpty_iff]
  intro h2
  simp [h2] at h

/-- C10: for every events file, parser and positive limit, the printer
prints at most `limit` events; the printed events are, as a multiset, a
selection of the parseable lines (unparseable lines skipped) whose every
member is at least as recent as every omitted parseable event; exactly
`min limit count` events are printed, in chronological (oldest-first)
order; and when no line parses the no-events message is printed and nil
returned. -/
theorem printGtEvents_spec (parse : String → Option Event)
    (lines : List String) (limit : Int) (hl : 0 < limit) :
    (lines.filterMap parse = [] →
      PrintGtEvents parse (some lines) limit = GtFeedResult.noEvents) ∧
    (lines.filterMap parse ≠ [] →
      ∃ evs dropped,
        PrintGtEvents parse (some lines) limit = GtFeedResult.printed evs ∧
        evs.length ≤ limit.toNat ∧
        evs.length = min limit.toNat (lines.filterMap parse).length ∧
        List.Perm (lines.filterMap parse) (evs ++ dropped) ∧
        (∀ d ∈ dropped, ∀ e ∈ evs, d.time ≤ e.time) ∧
        evs.Pairwise (fun a b => a.time ≤ b.time)) := by
  constructor
  · intro h0
    simp [PrintGtEvents, h0]
  · intro hne
    have hperm : List.Perm
        ((lines.filterMap parse).mergeSort (fun a b => decide (b.time ≤ a.time)))
        (lines.filterMap parse) :=
      List.mergeSort_perm (lines.filterMap parse) _
    have hlen : ((lines.filterMap parse).mergeSort
        (fun a b => decide (b.time ≤ a.time))).length =
        (lines.filterMap parse).length := hperm.length_eq
    have hsorted : ((lines.filterMap parse).mergeSort
        (fun a b => decide (b.time ≤ a.time))).Pairwise
        (fun a b => b.time ≤ a.time) := by
      have h := @List.sorted_mergeSort Event
        (fun a b : Event => decide (b.time ≤ a.time))
        (fun a b c h1 h2 => by
          simp only [decide_eq_true_eq] at *
          exact le_trans h2 h1)
        (fun a b => by simpa using le_total b.time a.time)
        (lines.filterMap parse)
      exact h.imp (by
        intro a b hab
        simpa using hab)
    have hpos : 0 < (lines.filterMap parse).length := by
      cases hfm : lines.filterMap parse with
      | nil => exact absurd hfm hne
      | cons a l => simp [hfm]
    by_cases hcond : 0 < limit ∧ (limit : Int) <
        (((lines.filterMap parse).mergeSort
          (fun a b => decide (b.time ≤ a.time))).length : Int)
    · refine ⟨(((lines.filterMap parse).mergeSort
          (fun a b => decide (b.time ≤ a.time))).take limit.toNat).reverse,
        ((lines.filterMap parse).mergeSort
          (fun a b => decide (b.time ≤ a.time))).drop limit.toNat, ?_, ?_, ?_, ?_,
        (desc_take_reverse _ limit.toNat hsorted).2,
        (desc_take_reverse _ limit.toNat hsorted).1⟩
      · have hie : ((((lines.filterMap parse).mergeSort
            (fun a b => decide (b.time ≤ a.time))).take limit.toNat).reverse).isEmpty
            = false := by
          apply nonempty_isEmpty_false
          simp only [List.length_reverse, List.length_take]
          have h1 : 0 < limit.toNat := by omega
          omega
        simp only [PrintGtEvents]
        rw [if_pos hcond]
        simp [hie]
      · simp only [List.length_reverse, List.length_take]
        omega
      · simp only [List.length_reverse, List.length_take]
        rw [hlen]
      · have h1 : List.Perm
            ((((lines.filterMap parse).mergeSort
              (fun a b => decide (b.time ≤ a.time))).take limit.toNat).reverse ++
              ((lines.filterMap parse).mergeSort
                (fun a b => decide (b.time ≤ a.time))).drop limit.toNat)
            ((lines.filterMap parse).mergeSort (fun a b => decide (b.time ≤ a.time))) := by
          have h2 := (List.reverse_perm (((lines.filterMap parse).mergeSort
            (fun a b => decide (b.time ≤ a.time))).take limit.toNat)).append_right
            (((lines.filterMap parse).mergeSort
              (fun a b => decide (b.time ≤ a.time))).drop limit.toNat)
          rw [List.take_append_drop] at h2
          exact h2
        exact ((h1.trans hperm).symm)
    · refine ⟨((lines.filterMap parse).mergeSort
          (fun a b => decide (b.time ≤ a.time))).reverse, [], ?_, ?_, ?_, ?_,
        by simp, ?_⟩
      · have hie : (((lines.filterMap parse).mergeSort
            (fun a b => decide (b.time ≤ a.time))).reverse).isEmpty = false := by
          apply nonempty_isEmpty_false
          simp only [List.length_reverse]
          omega
        simp only [PrintGtEvents]
        rw [if_neg hcond]
        simp [hie]
      · simp only [List.length_reverse]
        omega
      · simp only [List.length_reverse]
        rw [hlen]
        omega
      · simpa using ((List.reverse_perm _).trans hperm).symm
      · rw [List.pairwise_reverse]
        exact hsorted
/-- Witness for C10: four lines, one unparseable, limit 2 — the printer
emits the two most recent events oldest-first. -/
theorem printGtEvents_spec_witness :
    (0 : Int) < 2 ∧
    ((fun (lines : List String) =>
      (lines.filterMap (fun s => if s = "skip" then none
        else some (Event.mk (s.length : Int) "t" "a" s)) = [] →
        PrintGtEvents (fun s => if s = "skip" then none
          else some (Event.mk (s.length : Int) "t" "a" s)) (some lines) 2 =
          GtFeedResult.noEvents) ∧
      (lines.filterMap (fun s => if s = "skip" then none
        else some (Event.mk (s.length : Int) "t" "a" s)) ≠ [] →
        ∃ evs dropped,
          PrintGtEvents (fun s => if s = "skip" then none
            else some (Event.mk (s.length : Int) "t" "a" s)) (some lines) 2 =
            GtFeedResult.printed evs ∧
          evs.length ≤ (2 : Int).toNat ∧
          evs.length = min (2 : Int).toNat
            (lines.filterMap (fun s => if s = "skip" then none
              else some (Event.mk (s.length : Int) "t" "a" s))).length ∧
          List.Perm (lines.filterMap (fun s => if s = "skip" then none
            else some (Event.mk (s.length : Int) "t" "a" s))) (evs ++ dropped) ∧
          (∀ d ∈ dropped, ∀ e ∈ evs, d.time ≤ e.time) ∧
          evs.Pairwise (fun a b => a.time ≤ b.time)))
      ["aa", "a", "skip", "aaaa"]) := by
  constructor
  · decide
  · exact printGtEvents_spec
      (fun s => if s = "skip" then none
        else some (Event.mk (s.length : Int) "t" "a" s))
      ["aa", "a", "skip", "aaaa"] 2 (by decide)

/-- Witness for C1 at the test's inputs: the qualified prefix embeds its
socket qualifier in the respawn sub-command and the hook carries the
background flag. -/
theorem buildAutoRespawnHookCmd_format_witness :
    containsSubstr "-L gt" (respawnPart "tmux -L gt" "hq-deacon") ∧
    containsSubstr "run-shell -b" (buildAutoRespawnHookCmd "tmux -L gt" "hq-deacon") := by
  have h := buildAutoRespawnHookCmd_format "tmux -L gt" "hq-deacon"
  exact ⟨h.2.2.2.2.1 "-L gt" (by decide), h.1⟩

/-- Witness for C3: at the concrete 501-open-wisp store the escalation
warning is in the sweep's logs. -/
theorem reapWisps_alert_iff_witness :
    LogEntry.warning
        (reapWisps true (fun _ => true)
          (fun _ => ⟨List.replicate 501 ⟨WispStatus.open', 10, none⟩, false, false⟩)
          5 100 ["hq"]).totalOpen ∈
      (reapWisps true (fun _ => true)
        (fun _ => ⟨List.replicate 501 ⟨WispStatus.open', 10, none⟩, false, false⟩)
        5 100 ["hq"]).logs := by
  have h := reapWisps_alert_iff true (fun _ => true)
    (fun _ => ⟨List.replicate 501 ⟨WispStatus.open', 10, none⟩, false, false⟩)
    5 100 ["hq"]
  refine h.1.mpr ?_
  rw [h.2.1]
  decide
